import Mathlib

/-!
Shallow embedding of the presentation-agent pipeline core
(fact-check patching, layout selection, presentation targets,
image fitting, slide generation post-processing, review gate,
image enrichment, bullet preparation), with theorems checking the
natural-language specification against the embedded code.

Texts are modelled as lists of characters, mirroring Python string
semantics (substring search, first-occurrence replacement, strip,
lower) where the code uses them.
-/

/-- Python-style strings: a sequence of characters. -/
abbrev Str := List Char

/-- Decides whether pat occurs as a contiguous substring of s,
matching the Python expression pat in s (an empty pattern occurs
in every string). -/
def occursIn (pat : Str) (s : Str) : Bool :=
  match s with
  | [] => pat.isEmpty
  | _ :: rest => pat.isPrefixOf s || occursIn pat rest

/-- Replace the first occurrence of pat in s by rep, matching the
Python expression s.replace(pat, rep, 1): scanning left to right,
the leftmost match is replaced; an empty pattern matches at the
start, so rep is prepended; if pat does not occur, s is returned
unchanged. -/
def replaceFirst (s : Str) (pat rep : Str) : Str :=
  match s with
  | [] => if pat.isEmpty then rep else []
  | c :: rest =>
    if pat.isPrefixOf s then rep ++ s.drop pat.length
    else c :: replaceFirst rest pat rep

/-- Lowercase every character, matching Python str.lower for the
ASCII texts the code compares. -/
def pyLower (s : Str) : Str := s.map Char.toLower

/-- Remove leading and trailing whitespace, matching Python
str.strip(). -/
def pyStrip (s : Str) : Str :=
  ((s.dropWhile Char.isWhitespace).reverse.dropWhile Char.isWhitespace).reverse

-- Sanity checks on the Python string semantics.
example : occursIn "lo w".toList "hello world".toList = true := by decide
example : occursIn [] "abc".toList = true := by decide
example : replaceFirst "abc".toList [] "X".toList = "Xabc".toList := by decide
example : replaceFirst "aa".toList "a".toList "b".toList = "ba".toList := by decide
example : pyStrip "  hi ".toList = "hi".toList := by decide

/-! ## Data model (models.py) -/

/-- A section of the spoken manuscript (models.ManuscriptSection). -/
structure ManuscriptSection where
  name : Str
  content : Str
deriving DecidableEq

/-- A full speech manuscript (models.PresentationManuscript). -/
structure PresentationManuscript where
  title : Str
  sections : List ManuscriptSection
deriving DecidableEq

/-! ## Fact checker (fact_checker.py) -/

/-- Issue classification (fact_checker.IssueType). -/
inductive IssueType where
  | incorrect
  | misleading
  | outdated
  | unverifiable
deriving DecidableEq

/-- A single factual issue with minimal correction
(fact_checker.FactCheckIssue). -/
structure FactCheckIssue where
  originalText : Str
  issueType : IssueType
  explanation : Str
  correctedText : Str
deriving DecidableEq

/-- Structured report from fact-check analysis
(fact_checker.FactCheckReport). -/
structure FactCheckReport where
  issues : List FactCheckIssue
deriving DecidableEq

/-- One step of the inner loop of FactChecker.apply_patches: skip the
issue when its original_text is empty or does not occur in the
content, otherwise replace the first occurrence by corrected_text. -/
def patchContent (content : Str) (issue : FactCheckIssue) : Str :=
  if issue.originalText.isEmpty || !(occursIn issue.originalText content) then content
  else replaceFirst content issue.originalText issue.correctedText

/-- FactChecker.apply_patches: return the manuscript unchanged when
the report has no issues; otherwise rebuild every section, folding
each issue of the report in order over the section content. -/
def applyPatches (m : PresentationManuscript) (report : FactCheckReport) :
    PresentationManuscript :=
  if report.issues.isEmpty then m
  else
    { title := m.title
      sections := m.sections.map fun sec =>
        { name := sec.name
          content := report.issues.foldl patchContent sec.content } }

/-- Patch step as the claim literally states it: whenever
original_text occurs verbatim in the content (which an empty
original_text always does), the first occurrence is replaced. -/
def patchContentClaimSpec (content : Str) (issue : FactCheckIssue) : Str :=
  if occursIn issue.originalText content then
    replaceFirst content issue.originalText issue.correctedText
  else content

/-- Whole-manuscript patching as the claim literally states it. -/
def applyPatchesClaimSpec (m : PresentationManuscript) (report : FactCheckReport) :
    PresentationManuscript :=
  { title := m.title
    sections := m.sections.map fun sec =>
      { name := sec.name
        content := report.issues.foldl patchContentClaimSpec sec.content } }

/-- Patch step as the amended claim states it: only a non-empty
original_text that occurs verbatim in the content is replaced (first
occurrence only). -/
def patchContentAmendedSpec (content : Str) (issue : FactCheckIssue) : Str :=
  if !issue.originalText.isEmpty && occursIn issue.originalText content then
    replaceFirst content issue.originalText issue.correctedText
  else content

/-- Whole-manuscript patching as the amended claim states it. -/
def applyPatchesAmendedSpec (m : PresentationManuscript) (report : FactCheckReport) :
    PresentationManuscript :=
  { title := m.title
    sections := m.sections.map fun sec =>
      { name := sec.name
        content := report.issues.foldl patchContentAmendedSpec sec.content } }

theorem patchContent_eq_amendedSpec : patchContent = patchContentAmendedSpec := by
  funext c iss
  unfold patchContent patchContentAmendedSpec
  cases h1 : iss.originalText.isEmpty <;>
    cases h2 : occursIn iss.originalText c <;> simp [h1, h2]

theorem map_section_id (l : List ManuscriptSection) :
    (l.map fun sec => ManuscriptSection.mk sec.name sec.content) = l := by
  induction l with
  | nil => rfl
  | cons a as ih => simp [List.map, ih]

/-- Concrete manuscript for the C1 counterexample. -/
def msC1 : PresentationManuscript :=
  { title := "t".toList
    sections := [{ name := "s".toList, content := "abc".toList }] }

/-- Concrete report with an empty original_text for the C1
counterexample. -/
def reportC1 : FactCheckReport :=
  { issues := [{ originalText := []
                 issueType := IssueType.incorrect
                 explanation := []
                 correctedText := "X".toList }] }

/-- Claim C1, counterexample: at an issue whose original_text is the
empty string, the code skips the issue while the claim (original_text
occurs verbatim, hence its first occurrence is replaced) demands a
replacement, so apply_patches differs from the claimed behaviour. -/
theorem apply_patches_claim_counterexample :
    applyPatches msC1 reportC1 ≠ applyPatchesClaimSpec msC1 reportC1 := by
  decide

/-- Claim C1 (amended): apply_patches replaces, per section and per
issue in report order, exactly the first occurrence of each non-empty
original_text that occurs verbatim in the (possibly already patched)
section content; non-matching issues and untouched sections are left
unchanged, and an issue-free report returns the manuscript identically. -/
theorem apply_patches_amended_correct :
    (∀ (m : PresentationManuscript) (r : FactCheckReport),
      applyPatches m r = applyPatchesAmendedSpec m r) ∧
    (∀ m : PresentationManuscript, applyPatches m { issues := [] } = m) := by
  constructor
  · intro m r
    unfold applyPatches applyPatchesAmendedSpec
    rw [patchContent_eq_amendedSpec]
    cases hr : r.issues with
    | nil =>
      simp only [List.isEmpty_nil, if_true, List.foldl_nil]
      rw [map_section_id]
    | cons a as => simp [hr]
  · intro m
    rfl

theorem foldl_patchContent_of_no_occurrence
    (issues : List FactCheckIssue) (c : Str)
    (h : ∀ iss ∈ issues, occursIn iss.originalText c = false) :
    issues.foldl patchContent c = c := by
  induction issues with
  | nil => rfl
  | cons a as ih =>
    have ha : occursIn a.originalText c = false := h a (by simp)
    have hstep : patchContent c a = c := by
      unfold patchContent
      simp [ha]
    rw [List.foldl_cons, hstep]
    exact ih fun iss hmem => h iss (by simp [hmem])

theorem map_eq_self_of_forall_eq {α : Type} (l : List α) (f : α → α)
    (h : ∀ x ∈ l, f x = x) : l.map f = l := by
  induction l with
  | nil => rfl
  | cons a as ih =>
    simp only [List.map_cons, h a (by simp)]
    rw [ih fun x hx => h x (by simp [hx])]

/-- Concrete manuscript for the C2 counterexample: the text aa
contains two occurrences of the issue text a. -/
def msC2 : PresentationManuscript :=
  { title := "t".toList
    sections := [{ name := "s".toList, content := "aa".toList }] }

/-- Concrete single-issue report (replace a by b) for the C2
counterexample. -/
def reportC2 : FactCheckReport :=
  { issues := [{ originalText := "a".toList
                 issueType := IssueType.incorrect
                 explanation := []
                 correctedText := "b".toList }] }

/-- Claim C2, counterexample: with section content aa and the single
issue replacing a by b, one application yields ba and a second
application yields bb, so patching with the same non-empty report is
not idempotent in general. -/
theorem apply_patches_idempotent_counterexample :
    applyPatches (applyPatches msC2 reportC2) reportC2 ≠ applyPatches msC2 reportC2 := by
  decide

theorem applyPatches_id_of_no_occurrence
    (m : PresentationManuscript) (r : FactCheckReport)
    (h : ∀ sec ∈ m.sections, ∀ iss ∈ r.issues,
        occursIn iss.originalText sec.content = false) :
    applyPatches m r = m := by
  unfold applyPatches
  by_cases hr : r.issues.isEmpty
  · simp [hr]
  · rw [if_neg hr]
    have hmap : (m.sections.map fun sec =>
        ManuscriptSection.mk sec.name (r.issues.foldl patchContent sec.content))
        = m.sections := by
      apply map_eq_self_of_forall_eq
      intro sec hsec
      rw [foldl_patchContent_of_no_occurrence r.issues sec.content (h sec hsec)]
    rw [hmap]

/-- Claim C2 (amended): applying the same report a second time is a
no-op provided no issue original_text still occurs in any section of
the once-patched manuscript (in particular when each original text
occurred at most once and no correction reintroduced one). -/
theorem apply_patches_idempotent_when_cleared
    (m : PresentationManuscript) (r : FactCheckReport)
    (h : ∀ sec ∈ (applyPatches m r).sections, ∀ iss ∈ r.issues,
        occursIn iss.originalText sec.content = false) :
    applyPatches (applyPatches m r) r = applyPatches m r :=
  applyPatches_id_of_no_occurrence (applyPatches m r) r h

/-- Concrete manuscript for the C2 witness. -/
def msC2w : PresentationManuscript :=
  { title := "t".toList
    sections := [{ name := "s".toList, content := "hello world".toList }] }

/-- Concrete single-issue report (replace world by earth) for the C2
witness. -/
def reportC2w : FactCheckReport :=
  { issues := [{ originalText := "world".toList
                 issueType := IssueType.outdated
                 explanation := []
                 correctedText := "earth".toList }] }

/-- Witness for the amended claim C2 at a concrete manuscript and
report in which the patched text no longer contains the issue text. -/
theorem apply_patches_idempotent_witness :
    (∀ sec ∈ (applyPatches msC2w reportC2w).sections, ∀ iss ∈ reportC2w.issues,
        occursIn iss.originalText sec.content = false) ∧
    applyPatches (applyPatches msC2w reportC2w) reportC2w
      = applyPatches msC2w reportC2w :=
  ⟨by decide, apply_patches_idempotent_when_cleared msC2w reportC2w (by decide)⟩

/-! ## Layout selection (design_library.py) -/

/-- Available slide layout types (design_library.LayoutType). -/
inductive LayoutType where
  | titleSlide
  | boldSectionDivider
  | titleAndBullets
  | accentLeftLayout
  | cardLayout
  | heroRight
  | heroBackground
  | imageFocus
  | twoColumn
  | minimalText
  | conclusion
deriving DecidableEq

/-- design_library.select_layout as a function of the slide index, the
total slide count, whether the slide has an image, and its bullet
count (the quantities the code derives from its arguments). Indices
are integers so that total_slides - 1 matches Python arithmetic. -/
def selectLayout (slideIndex totalSlides : Int) (hasImage : Bool)
    (bulletCount : Nat) : LayoutType :=
  if slideIndex = 0 then
    if hasImage then LayoutType.heroBackground else LayoutType.boldSectionDivider
  else if slideIndex = totalSlides - 1 then LayoutType.conclusion
  else if hasImage = true ∧ bulletCount ≤ 2 then LayoutType.heroRight
  else if hasImage = true ∧ bulletCount ≤ 1 then LayoutType.imageFocus
  else if hasImage = true then LayoutType.twoColumn
  else if 4 ≤ bulletCount then LayoutType.cardLayout
  else if bulletCount ≤ 2 then LayoutType.minimalText
  else LayoutType.accentLeftLayout

/-- The priority table exactly as the claim lists it, first match
winning: first slide with image HERO_BACKGROUND else
BOLD_SECTION_DIVIDER; else last slide CONCLUSION; else image with at
most 2 bullets HERO_RIGHT; else image with at most 1 bullet
IMAGE_FOCUS; else image TWO_COLUMN; else at least 4 bullets
CARD_LAYOUT; else at most 2 bullets MINIMAL_TEXT; else
ACCENT_LEFT_LAYOUT. -/
def selectLayoutTableSpec (slideIndex totalSlides : Int) (hasImage : Bool)
    (bulletCount : Nat) : LayoutType :=
  if slideIndex = 0 then
    if hasImage then LayoutType.heroBackground else LayoutType.boldSectionDivider
  else if slideIndex = totalSlides - 1 then LayoutType.conclusion
  else if hasImage = true ∧ bulletCount ≤ 2 then LayoutType.heroRight
  else if hasImage = true ∧ bulletCount ≤ 1 then LayoutType.imageFocus
  else if hasImage = true then LayoutType.twoColumn
  else if 4 ≤ bulletCount then LayoutType.cardLayout
  else if bulletCount ≤ 2 then LayoutType.minimalText
  else LayoutType.accentLeftLayout

/-- Claim C3: select_layout implements the priority table with first
match winning; in particular a non-first non-last slide with an image
and 2 bullets is HERO_RIGHT, a first slide without an image is
BOLD_SECTION_DIVIDER, and a last non-first slide is always
CONCLUSION, whatever its content. -/
theorem select_layout_table_correct :
    (∀ (i n : Int) (img : Bool) (b : Nat),
        selectLayout i n img b = selectLayoutTableSpec i n img b) ∧
    (∀ (i n : Int), i ≠ 0 → i = n - 1 →
        ∀ (img : Bool) (b : Nat), selectLayout i n img b = LayoutType.conclusion) ∧
    (∀ (i n : Int), i ≠ 0 → i ≠ n - 1 →
        selectLayout i n true 2 = LayoutType.heroRight) ∧
    (∀ (n : Int) (b : Nat), selectLayout 0 n false b = LayoutType.boldSectionDivider) := by
  refine ⟨fun i n img b => rfl, ?_, ?_, fun n b => rfl⟩
  · intro i n h1 h2 img b
    unfold selectLayout
    rw [if_neg h1, if_pos h2]
  · intro i n h1 h2
    unfold selectLayout
    rw [if_neg h1, if_neg h2, if_pos ⟨rfl, by norm_num⟩]

/-- Witness for claim C3 at concrete slides: slide 2 of 3 is the last
slide and yields CONCLUSION; slide 1 of 3 with an image and 2 bullets
yields HERO_RIGHT. -/
theorem select_layout_witness :
    selectLayout 2 3 true 5 = LayoutType.conclusion ∧
    selectLayout 1 3 true 2 = LayoutType.heroRight :=
  ⟨select_layout_table_correct.2.1 2 3 (by decide) (by decide) true 5,
   select_layout_table_correct.2.2.1 1 3 (by decide) (by decide)⟩

/-! ## Presentation targets (presentation_targets.py) -/

/-- presentation_targets.DEFAULT_WPM. -/
def DEFAULT_WPM : Nat := 135

/-- presentation_targets.WPM_SLOW_MIN. -/
def WPM_SLOW_MIN : Nat := 120

/-- presentation_targets.WPM_SLOW_MAX. -/
def WPM_SLOW_MAX : Nat := 130

/-- presentation_targets.WPM_FAST_MIN. -/
def WPM_FAST_MIN : Nat := 140

/-- presentation_targets.WPM_FAST_MAX. -/
def WPM_FAST_MAX : Nat := 150

/-- presentation_targets.SLIDES_PER_MINUTE_MIN. -/
def SLIDES_PER_MINUTE_MIN : Nat := 1

/-- presentation_targets.SLIDES_PER_MINUTE_MAX. -/
def SLIDES_PER_MINUTE_MAX : Nat := 2

/-- Audience terms mapped to the slow speaking band. -/
def slowAudienceTerms : List Str :=
  ["student", "general", "public", "beginner", "overview",
   "introductory", "everyone"].map String.toList

/-- Audience terms mapped to the fast speaking band. -/
def fastAudienceTerms : List Str :=
  ["expert", "technical", "engineer", "developer", "specialist",
   "professional"].map String.toList

/-- presentation_targets.get_wpm_for_audience: empty or blank audience
gets the default rate; otherwise the lowercased, stripped audience is
searched for slow-band then fast-band terms. -/
def getWpmForAudience (audience : Str) : Nat :=
  if (pyStrip audience).isEmpty then DEFAULT_WPM
  else
    let lower := pyStrip (pyLower audience)
    if slowAudienceTerms.any fun t => occursIn t lower then
      (WPM_SLOW_MIN + WPM_SLOW_MAX) / 2
    else if fastAudienceTerms.any fun t => occursIn t lower then
      (WPM_FAST_MIN + WPM_FAST_MAX) / 2
    else DEFAULT_WPM

/-- Speaker profile (models.SpeakerProfile): age with optional role
and experience level. -/
structure SpeakerProfile where
  age : Nat
  role : Option Str
  experienceLevel : Option Str
deriving DecidableEq

/-- The dictionary returned by
presentation_targets.compute_presentation_targets. -/
structure PresentationTargets where
  targetWordCount : Nat
  minSlides : Nat
  maxSlides : Nat
  wpm : Nat
deriving DecidableEq

/-- presentation_targets.compute_presentation_targets: audience-based
WPM, optionally adjusted by the speaker profile (a minor capped at
the slow-band maximum; an expert of age at least 50 floored at the
fast-band minimum), then word and slide targets from the duration. -/
def computePresentationTargets (durationMinutes : Nat) (audience : Str)
    (speakerProfile : Option SpeakerProfile) : PresentationTargets :=
  let wpm0 := getWpmForAudience audience
  let wpm :=
    match speakerProfile with
    | none => wpm0
    | some p =>
      if p.age < 18 then min wpm0 WPM_SLOW_MAX
      else if 50 ≤ p.age then
        match p.experienceLevel with
        | none => wpm0
        | some e =>
          if e.isEmpty then wpm0
          else if pyLower e = "expert".toList then max wpm0 WPM_FAST_MIN
          else wpm0
      else wpm0
  let minSlides := max 3 (durationMinutes * SLIDES_PER_MINUTE_MIN)
  let maxSlides := max minSlides (durationMinutes * SLIDES_PER_MINUTE_MAX)
  { targetWordCount := durationMinutes * wpm
    minSlides := minSlides
    maxSlides := maxSlides
    wpm := wpm }

/-- Claim C4: without a speaker profile the targets are exactly
duration times the audience rate, min_slides = max(3, duration) and
max_slides = max(min_slides, 2 x duration), so min_slides is at least
3 and never exceeds max_slides; duration 5 with audience general
public yields rate 125, word target 625, and slide range 5 to 10. -/
theorem compute_targets_correct (d : Nat) (audience : Str)
    (hlo : 1 ≤ d) (hhi : d ≤ 120) :
    ((computePresentationTargets d audience none).targetWordCount
        = d * getWpmForAudience audience) ∧
    ((computePresentationTargets d audience none).wpm = getWpmForAudience audience) ∧
    ((computePresentationTargets d audience none).minSlides = max 3 (d * 1)) ∧
    ((computePresentationTargets d audience none).maxSlides
        = max (computePresentationTargets d audience none).minSlides (d * 2)) ∧
    (3 ≤ (computePresentationTargets d audience none).minSlides) ∧
    ((computePresentationTargets d audience none).minSlides
        ≤ (computePresentationTargets d audience none).maxSlides) ∧
    (computePresentationTargets 5 "general public".toList none
        = { targetWordCount := 625, minSlides := 5, maxSlides := 10, wpm := 125 }) := by
  refine ⟨rfl, rfl, rfl, rfl, le_max_left 3 (d * SLIDES_PER_MINUTE_MIN),
    le_max_left _ (d * SLIDES_PER_MINUTE_MAX), by decide⟩

/-- Witness for claim C4 at duration 5 and audience general public. -/
theorem compute_targets_witness :
    3 ≤ (computePresentationTargets 5 "general public".toList none).minSlides ∧
    (computePresentationTargets 5 "general public".toList none).minSlides
      ≤ (computePresentationTargets 5 "general public".toList none).maxSlides ∧
    computePresentationTargets 5 "general public".toList none
      = { targetWordCount := 625, minSlides := 5, maxSlides := 10, wpm := 125 } :=
  ⟨(compute_targets_correct 5 "general public".toList (by decide) (by decide)).2.2.2.2.1,
   (compute_targets_correct 5 "general public".toList (by decide) (by decide)).2.2.2.2.2.1,
   (compute_targets_correct 5 "general public".toList (by decide) (by decide)).2.2.2.2.2.2⟩

/-! ## Image fitting (ppt_exporter.py) -/

/-- The rectangle (in inches) a picture is finally placed at by
PPTExporter._add_picture_fit_centered. -/
structure PicturePlacement where
  leftInch : ℚ
  topInch : ℚ
  widthInch : ℚ
  heightInch : ℚ
deriving DecidableEq

/-- PPTExporter._add_picture_fit_centered on its geometric core: given
the image size reported by _get_image_size_inches (none when the
dimensions cannot be determined) and the target box, return the
placement of the picture, or none when the image is skipped. Sizes
are rationals, the idealisation of the Python floats. -/
def addPictureFitCentered (size : Option (ℚ × ℚ))
    (leftInch topInch boxWidthInch boxHeightInch : ℚ) : Option PicturePlacement :=
  match size with
  | none => none
  | some (imgW, imgH) =>
    if imgW ≤ 0 ∨ imgH ≤ 0 then none
    else
      let scale := min (boxWidthInch / imgW) (boxHeightInch / imgH)
      let fitW := imgW * scale
      let fitH := imgH * scale
      some { leftInch := leftInch + (boxWidthInch - fitW) / 2
             topInch := topInch + (boxHeightInch - fitH) / 2
             widthInch := fitW
             heightInch := fitH }

/-- Claim C5: with positive image and box dimensions the placed
picture has exactly the uniformly scaled size with scale
min(box_w/img_w, box_h/img_h), centered in the box, it never exceeds
the box in either direction, and it preserves the width to height
proportion of the image exactly; an undetermined or non-positive
image size renders nothing. -/
theorem add_picture_fit_centered_correct
    (imgW imgH left top boxW boxH : ℚ) :
    (addPictureFitCentered none left top boxW boxH = none) ∧
    (imgW ≤ 0 ∨ imgH ≤ 0 →
      addPictureFitCentered (some (imgW, imgH)) left top boxW boxH = none) ∧
    (0 < imgW → 0 < imgH → 0 < boxW → 0 < boxH →
      addPictureFitCentered (some (imgW, imgH)) left top boxW boxH
        = some { leftInch := left + (boxW - imgW * min (boxW / imgW) (boxH / imgH)) / 2
                 topInch := top + (boxH - imgH * min (boxW / imgW) (boxH / imgH)) / 2
                 widthInch := imgW * min (boxW / imgW) (boxH / imgH)
                 heightInch := imgH * min (boxW / imgW) (boxH / imgH) } ∧
      imgW * min (boxW / imgW) (boxH / imgH) ≤ boxW ∧
      imgH * min (boxW / imgW) (boxH / imgH) ≤ boxH ∧
      (imgW * min (boxW / imgW) (boxH / imgH)) * imgH
        = (imgH * min (boxW / imgW) (boxH / imgH)) * imgW) := by
  refine ⟨rfl, fun h => by simp [addPictureFitCentered, h], fun hw hh hbw hbh => ?_⟩
  have hwne : imgW ≠ 0 := ne_of_gt hw
  have hhne : imgH ≠ 0 := ne_of_gt hh
  refine ⟨?_, ?_, ?_, by ring⟩
  · simp [addPictureFitCentered, not_le.mpr hw, not_le.mpr hh]
  · calc imgW * min (boxW / imgW) (boxH / imgH)
        ≤ imgW * (boxW / imgW) :=
          mul_le_mul_of_nonneg_left (min_le_left _ _) (le_of_lt hw)
      _ = boxW := by field_simp
  · calc imgH * min (boxW / imgW) (boxH / imgH)
        ≤ imgH * (boxH / imgH) :=
          mul_le_mul_of_nonneg_left (min_le_right _ _) (le_of_lt hh)
      _ = boxH := by field_simp

/-- Witness for claim C5: a 4 by 3 image in a 2 by 2 box at the
origin is scaled by one half to 2 by 3/2 and centered, and a
non-positive reported width renders nothing. -/
theorem add_picture_fit_centered_witness :
    (addPictureFitCentered (some ((4 : ℚ), (3 : ℚ))) 0 0 2 2
        = some { leftInch := 0 + ((2 : ℚ) - 4 * min ((2 : ℚ) / 4) ((2 : ℚ) / 3)) / 2
                 topInch := 0 + ((2 : ℚ) - 3 * min ((2 : ℚ) / 4) ((2 : ℚ) / 3)) / 2
                 widthInch := 4 * min ((2 : ℚ) / 4) ((2 : ℚ) / 3)
                 heightInch := 3 * min ((2 : ℚ) / 4) ((2 : ℚ) / 3) } ∧
      (4 : ℚ) * min ((2 : ℚ) / 4) ((2 : ℚ) / 3) ≤ 2 ∧
      (3 : ℚ) * min ((2 : ℚ) / 4) ((2 : ℚ) / 3) ≤ 2 ∧
      ((4 : ℚ) * min ((2 : ℚ) / 4) ((2 : ℚ) / 3)) * 3
        = ((3 : ℚ) * min ((2 : ℚ) / 4) ((2 : ℚ) / 3)) * 4) ∧
    addPictureFitCentered (some ((-1 : ℚ), (3 : ℚ))) 0 0 2 2 = none :=
  ⟨(add_picture_fit_centered_correct 4 3 0 0 2 2).2.2
      (by norm_num) (by norm_num) (by norm_num) (by norm_num),
   (add_picture_fit_centered_correct (-1) 3 0 0 2 2).2.1 (Or.inl (by norm_num))⟩

/-! ## Slide generation post-processing (slide_generator.py) -/

/-- Content for a single slide (models.SlideContent). -/
structure SlideContent where
  slideNumber : Nat
  title : Str
  bulletPoints : List Str
  speakerNotes : Str
  imageQuery : Option Str
deriving DecidableEq

/-- Wrapper for the slide list returned by the generation service
(models.SlideListOutput). -/
structure SlideListOutput where
  slides : List SlideContent
deriving DecidableEq

/-- The deterministic tail of SlideGenerator.generate: the structured
result of the generation service is rebuilt slide by slide with
speaker_notes forced empty and every other field copied through. -/
def slideGeneratorGenerate (result : SlideListOutput) : List SlideContent :=
  result.slides.map fun s =>
    { slideNumber := s.slideNumber
      title := s.title
      bulletPoints := s.bulletPoints
      speakerNotes := []
      imageQuery := s.imageQuery }

/-- Concrete service output for the C6 counterexample: a single slide
the service numbered 2. -/
def serviceOutputC6 : SlideListOutput :=
  { slides := [{ slideNumber := 2
                 title := "t".toList
                 bulletPoints := []
                 speakerNotes := []
                 imageQuery := none }] }

/-- Claim C6, counterexample: generate copies slide_number verbatim
from the service result, so a service output numbered 2 alone yields
an output whose numbers are not the contiguous sequence starting at
1. -/
theorem slide_numbers_contiguous_counterexample :
    ¬ ((slideGeneratorGenerate serviceOutputC6).map SlideContent.slideNumber
        = List.range' 1 (slideGeneratorGenerate serviceOutputC6).length) := by
  decide

/-- Claim C6 (amended): generate preserves the slide numbers of the
service output in emission order, so whenever the service result is
numbered contiguously from 1, the returned slide list is too (slide i
in emission order has slide_number i + 1). -/
theorem slide_numbers_contiguous_preserved (result : SlideListOutput)
    (h : result.slides.map SlideContent.slideNumber
        = List.range' 1 result.slides.length) :
    (slideGeneratorGenerate result).map SlideContent.slideNumber
      = List.range' 1 (slideGeneratorGenerate result).length := by
  unfold slideGeneratorGenerate
  rw [List.map_map, List.length_map]
  exact h

/-- Concrete contiguously numbered service output for the C6
witness. -/
def serviceOutputC6w : SlideListOutput :=
  { slides := [{ slideNumber := 1
                 title := "a".toList
                 bulletPoints := []
                 speakerNotes := []
                 imageQuery := none },
               { slideNumber := 2
                 title := "b".toList
                 bulletPoints := []
                 speakerNotes := "note".toList
                 imageQuery := some "q".toList }] }

/-- Witness for the amended claim C6 at a concrete two-slide service
output numbered 1, 2. -/
theorem slide_numbers_contiguous_witness :
    (slideGeneratorGenerate serviceOutputC6w).map SlideContent.slideNumber
      = List.range' 1 (slideGeneratorGenerate serviceOutputC6w).length :=
  slide_numbers_contiguous_preserved serviceOutputC6w (by decide)

/-! ## Review gate (script_reviewer.py) -/

/-- ScriptReviewer.review_and_improve with the two service calls made
explicit oracles: evalResult is the outcome of the evaluation call
(its 0 to 10 score, or an exception) and rewriteResult the outcome of
the rewrite call; the whole body runs inside one try that falls back
to the original manuscript with score 0. -/
def reviewAndImprove (m : PresentationManuscript)
    (evalResult : Except Unit Nat)
    (rewriteResult : Except Unit PresentationManuscript) :
    PresentationManuscript × Nat :=
  match evalResult with
  | Except.error _ => (m, 0)
  | Except.ok score =>
    if 8 ≤ score then (m, score)
    else
      match rewriteResult with
      | Except.error _ => (m, 0)
      | Except.ok improved => (improved, score)

/-- Claim C7: a score of at least 8 returns the input manuscript
unchanged with that score, independently of the rewrite oracle; a
failing evaluation returns the original with score 0; a failing
rewrite (only consulted below 8) returns the original with score 0;
a successful rewrite below 8 is returned as is with the evaluation
score and no further evaluation. -/
theorem review_and_improve_correct (m : PresentationManuscript)
    (evalResult : Except Unit Nat)
    (rewriteResult : Except Unit PresentationManuscript) :
    (∀ score, evalResult = Except.ok score → 8 ≤ score →
        reviewAndImprove m evalResult rewriteResult = (m, score)) ∧
    (evalResult = Except.error () →
        reviewAndImprove m evalResult rewriteResult = (m, 0)) ∧
    (∀ score, evalResult = Except.ok score → score < 8 →
        rewriteResult = Except.error () →
        reviewAndImprove m evalResult rewriteResult = (m, 0)) ∧
    (∀ score improved, evalResult = Except.ok score → score < 8 →
        rewriteResult = Except.ok improved →
        reviewAndImprove m evalResult rewriteResult = (improved, score)) ∧
    (∀ score, evalResult = Except.ok score → 8 ≤ score →
        ∀ otherRewrite : Except Unit PresentationManuscript,
          reviewAndImprove m evalResult rewriteResult
            = reviewAndImprove m evalResult otherRewrite) := by
  refine ⟨?_, ?_, ?_, ?_, ?_⟩
  · intro score he hs
    subst he
    simp [reviewAndImprove, hs]
  · intro he
    subst he
    rfl
  · intro score he hs hr
    subst he
    subst hr
    simp [reviewAndImprove, Nat.not_le.mpr hs]
  · intro score improved he hs hr
    subst he
    subst hr
    simp [reviewAndImprove, Nat.not_le.mpr hs]
  · intro score he hs otherRewrite
    subst he
    simp [reviewAndImprove, hs]

/-- Concrete manuscripts for the C7 witness. -/
def msC7 : PresentationManuscript :=
  { title := "orig".toList, sections := [] }

/-- Concrete rewritten manuscript for the C7 witness. -/
def msC7improved : PresentationManuscript :=
  { title := "improved".toList, sections := [] }

/-- Witness for claim C7 at concrete oracle outcomes: score 9 keeps
the original, a failed evaluation scores 0, a failed rewrite below 8
keeps the original with score 0, and a successful rewrite below 8 is
returned with the score. -/
theorem review_and_improve_witness :
    reviewAndImprove msC7 (Except.ok 9) (Except.ok msC7improved) = (msC7, 9) ∧
    reviewAndImprove msC7 (Except.error ()) (Except.ok msC7improved) = (msC7, 0) ∧
    reviewAndImprove msC7 (Except.ok 5) (Except.error ()) = (msC7, 0) ∧
    reviewAndImprove msC7 (Except.ok 5) (Except.ok msC7improved) = (msC7improved, 5) :=
  ⟨(review_and_improve_correct msC7 (Except.ok 9) (Except.ok msC7improved)).1
      9 rfl (by decide),
   (review_and_improve_correct msC7 (Except.error ()) (Except.ok msC7improved)).2.1 rfl,
   (review_and_improve_correct msC7 (Except.ok 5) (Except.error ())).2.2.1
      5 rfl (by decide) rfl,
   (review_and_improve_correct msC7 (Except.ok 5) (Except.ok msC7improved)).2.2.2.1
      5 msC7improved rfl (by decide) rfl⟩

/-! ## Bullet preparation (ppt_exporter.py and design_library.py) -/

/-- design_library.MAX_BULLETS_DISPLAY. -/
def MAX_BULLETS_DISPLAY : Nat := 6

/-- design_library.BODY_MIN_FONT_SIZE. -/
def BODY_MIN_FONT_SIZE : Int := 10

/-- design_library.BODY_FONT_REDUCE_IF_BULLETS_ABOVE. -/
def BODY_FONT_REDUCE_IF_BULLETS_ABOVE : Nat := 4

/-- PPTExporter._prepare_bullets: cap the bullets at
MAX_BULLETS_DISPLAY and, when the original list has at least
BODY_FONT_REDUCE_IF_BULLETS_ABOVE entries, emit a body font override
of the theme body size reduced by 2 and floored at
BODY_MIN_FONT_SIZE. -/
def prepareBullets (themeBodySize : Int) (bulletPoints : List Str) :
    List Str × Option Int :=
  if bulletPoints.isEmpty then ([], none)
  else
    let bullets := bulletPoints.take MAX_BULLETS_DISPLAY
    let fontOverride : Option Int :=
      if BODY_FONT_REDUCE_IF_BULLETS_ABOVE ≤ bulletPoints.length then
        some (max BODY_MIN_FONT_SIZE (themeBodySize - 2))
      else none
    (bullets, fontOverride)

/-- Claim C9: the displayed bullets are exactly the first 6 of the
input (hence at most 6), and the font override is
max(10, theme body size - 2) exactly when the original bullet count
is at least 4, independent of the truncation, and absent otherwise. -/
theorem prepare_bullets_correct (themeBodySize : Int) (bulletPoints : List Str) :
    ((prepareBullets themeBodySize bulletPoints).1 = bulletPoints.take 6) ∧
    ((prepareBullets themeBodySize bulletPoints).1.length ≤ 6) ∧
    ((prepareBullets themeBodySize bulletPoints).2
      = if 4 ≤ bulletPoints.length then some (max 10 (themeBodySize - 2)) else none) := by
  have h1 : (prepareBullets themeBodySize bulletPoints).1 = bulletPoints.take 6 := by
    cases bulletPoints with
    | nil => rfl
    | cons a as => rfl
  refine ⟨h1, ?_, ?_⟩
  · rw [h1, List.length_take]
    omega
  · cases bulletPoints with
    | nil => rfl
    | cons a as => rfl

/-! ## Image enrichment (image_service.py) -/

/-- Slide content with an optional resolved image URL
(models.SlideWithImage). -/
structure SlideWithImage where
  slideNumber : Nat
  title : Str
  bulletPoints : List Str
  speakerNotes : Str
  imageUrl : Option Str
  imageQuery : Option Str
deriving DecidableEq

/-- The per-slide task process_slide inside
ImageService.enrich_slides_with_images. The outcome of the slide
fetch (fetch_image_for_query for slide i, either a URL option or a
raised exception) is an explicit oracle indexed by the slide
position; any exception degrades the slide to no image, and a slide
without a non-blank image_query never consults the oracle. -/
def processSlide (fetch : Nat → Except Unit (Option Str)) (i : Nat)
    (slide : SlideContent) : SlideWithImage :=
  let imageUrl : Option Str :=
    match slide.imageQuery with
    | none => none
    | some q =>
      if (pyStrip q).isEmpty then none
      else
        match fetch i with
        | Except.error _ => none
        | Except.ok url => url
  { slideNumber := slide.slideNumber
    title := slide.title
    bulletPoints := slide.bulletPoints
    speakerNotes := slide.speakerNotes
    imageUrl := imageUrl
    imageQuery := slide.imageQuery }

/-- The enumerated fan-out of enrich_slides_with_images: one
process_slide task per slide, results recombined in input order. -/
def enrichAux (fetch : Nat → Except Unit (Option Str)) (i : Nat) :
    List SlideContent → List SlideWithImage
  | [] => []
  | s :: rest => processSlide fetch i s :: enrichAux fetch (i + 1) rest

/-- ImageService.enrich_slides_with_images with the per-slide fetch
outcomes as an explicit oracle. -/
def enrichSlidesWithImages (fetch : Nat → Except Unit (Option Str))
    (slides : List SlideContent) : List SlideWithImage :=
  enrichAux fetch 0 slides

theorem enrichAux_length (fetch : Nat → Except Unit (Option Str))
    (slides : List SlideContent) :
    ∀ i, (enrichAux fetch i slides).length = slides.length := by
  induction slides with
  | nil => intro i; rfl
  | cons s rest ih =>
    intro i
    simp [enrichAux, ih (i + 1)]

theorem enrichAux_getElem? (fetch : Nat → Except Unit (Option Str))
    (slides : List SlideContent) :
    ∀ start i, (enrichAux fetch start slides)[i]?
      = slides[i]?.map fun s => processSlide fetch (start + i) s := by
  induction slides with
  | nil => intro start i; rfl
  | cons s rest ih =>
    intro start i
    cases i with
    | zero => simp [enrichAux]
    | succ j =>
      simp only [enrichAux, List.getElem?_cons_succ]
      rw [ih (start + 1) j]
      have harith : start + 1 + j = start + (j + 1) := by omega
      rw [harith]

/-- Claim C8: enrichment keeps one entry per input slide in order,
each entry is exactly the per-slide task result for that slide, a
slide whose fetch raised ends with no image, and each per-slide task
depends only on its own fetch outcome, so one failing slide never
disturbs the others. -/
theorem enrich_slides_isolates_failures (fetch : Nat → Except Unit (Option Str))
    (slides : List SlideContent) :
    ((enrichSlidesWithImages fetch slides).length = slides.length) ∧
    (∀ i s, slides[i]? = some s →
      (enrichSlidesWithImages fetch slides)[i]? = some (processSlide fetch i s)) ∧
    (∀ i s, fetch i = Except.error () → (processSlide fetch i s).imageUrl = none) ∧
    (∀ (otherFetch : Nat → Except Unit (Option Str)) i s, fetch i = otherFetch i →
      processSlide fetch i s = processSlide otherFetch i s) := by
  refine ⟨enrichAux_length fetch slides 0, ?_, ?_, ?_⟩
  · intro i s hs
    unfold enrichSlidesWithImages
    rw [enrichAux_getElem? fetch slides 0 i, hs]
    simp
  · intro i s hf
    unfold processSlide
    cases hq : s.imageQuery with
    | none => rfl
    | some q =>
      by_cases hb : (pyStrip q).isEmpty
      · simp [hb]
      · simp [hb, hf]
  · intro otherFetch i s hfi
    unfold processSlide
    rw [hfi]

/-- Concrete slides for the C8 witness: both carry image queries. -/
def slidesC8 : List SlideContent :=
  [{ slideNumber := 1
     title := "a".toList
     bulletPoints := []
     speakerNotes := []
     imageQuery := some "q1".toList },
   { slideNumber := 2
     title := "b".toList
     bulletPoints := []
     speakerNotes := []
     imageQuery := some "q2".toList }]

/-- Concrete fetch oracle for the C8 witness: the first slide search
throws and the second resolves a URL. -/
def fetchC8 : Nat → Except Unit (Option Str) := fun i =>
  if i = 0 then Except.error () else Except.ok (some "http://img".toList)

/-- Witness for claim C8: with the first slide search throwing and
the second resolving, both slides keep an entry, the first with no
image and the second with its own resolved image. -/
theorem enrich_slides_isolates_witness :
    (enrichSlidesWithImages fetchC8 slidesC8).length = slidesC8.length ∧
    (enrichSlidesWithImages fetchC8 slidesC8)[0]?
      = some (processSlide fetchC8 0
          { slideNumber := 1
            title := "a".toList
            bulletPoints := []
            speakerNotes := []
            imageQuery := some "q1".toList }) ∧
    (processSlide fetchC8 0
        { slideNumber := 1
          title := "a".toList
          bulletPoints := []
          speakerNotes := []
          imageQuery := some "q1".toList }).imageUrl = none :=
  ⟨(enrich_slides_isolates_failures fetchC8 slidesC8).1,
   (enrich_slides_isolates_failures fetchC8 slidesC8).2.1 0 _ rfl,
   (enrich_slides_isolates_failures fetchC8 slidesC8).2.2.1 0 _ rfl⟩

/-- Claim C10: enrichment returns exactly one output slide per input
slide, in order, and every field except image_url (slide_number,
title, bullet_points, speaker_notes, image_query) is copied unchanged
from the input slide at the same position. -/
theorem enrich_slides_frame (fetch : Nat → Except Unit (Option Str))
    (slides : List SlideContent) :
    ((enrichSlidesWithImages fetch slides).length = slides.length) ∧
    (∀ (i : Nat) (s : SlideContent), slides[i]? = some s →
      ∃ out : SlideWithImage, (enrichSlidesWithImages fetch slides)[i]? = some out ∧
        out.slideNumber = s.slideNumber ∧
        out.title = s.title ∧
        out.bulletPoints = s.bulletPoints ∧
        out.speakerNotes = s.speakerNotes ∧
        out.imageQuery = s.imageQuery) := by
  refine ⟨enrichAux_length fetch slides 0, ?_⟩
  intro i s hs
  refine ⟨processSlide fetch i s, ?_, rfl, rfl, rfl, rfl, rfl⟩
  unfold enrichSlidesWithImages
  rw [enrichAux_getElem? fetch slides 0 i, hs]
  simp

/-- Concrete slides for the C10 witness. -/
def slidesC10 : List SlideContent :=
  [{ slideNumber := 7
     title := "title".toList
     bulletPoints := ["p1".toList, "p2".toList]
     speakerNotes := "n".toList
     imageQuery := some "query".toList }]

/-- Concrete fetch oracle for the C10 witness. -/
def fetchC10 : Nat → Except Unit (Option Str) := fun _ =>
  Except.ok (some "http://u".toList)

/-- Witness for claim C10 at a concrete one-slide input. -/
theorem enrich_slides_frame_witness :
    (enrichSlidesWithImages fetchC10 slidesC10).length = slidesC10.length ∧
    ∃ out : SlideWithImage, (enrichSlidesWithImages fetchC10 slidesC10)[0]? = some out ∧
      out.slideNumber = 7 ∧
      out.title = "title".toList ∧
      out.bulletPoints = ["p1".toList, "p2".toList] ∧
      out.speakerNotes = "n".toList ∧
      out.imageQuery = some "query".toList :=
  ⟨(enrich_slides_frame fetchC10 slidesC10).1,
   (enrich_slides_frame fetchC10 slidesC10).2 0 _ rfl⟩
